import Mathlib

/-
Verification of the interactive testing application core
(`src/test_app.py`): the `Question` data type with its answer-checking
logic, and the `TestSession` state machine with `submit_answer` and
`finish_test`.  Machine integers are modelled as `Int`, Python floats as
`Rat`, timestamps as `Int`, and the Python exceptions that can escape the
session methods as an explicit error type.
-/

namespace TestApp

/-- Lowercase mapping for a single character, modelling Python
`str.lower()` restricted to ASCII letters. -/
def lowerChar (c : Char) : Char :=
  if 'A' ≤ c ∧ c ≤ 'Z' then Char.ofNat (c.toNat + 32) else c

/-- Models Python `str.lower()` (ASCII fragment). -/
def pyLower (s : String) : String :=
  String.mk (s.data.map lowerChar)

/-- The characters Python `str.strip()` removes (ASCII whitespace:
space, tab, newline, carriage return, vertical tab, form feed). -/
def isPySpace (c : Char) : Bool :=
  c == ' ' || c == '\t' || c == '\n' || c == '\r' ||
    c == Char.ofNat 11 || c == Char.ofNat 12

/-- Models Python `str.strip()`: drop leading and trailing whitespace. -/
def pyStrip (s : String) : String :=
  String.mk (((s.data.dropWhile isPySpace).reverse.dropWhile isPySpace).reverse)

/-- Value of a nonempty all-digit character list, `none` otherwise. -/
def parseDigits (cs : List Char) : Option Nat :=
  if cs ≠ [] ∧ cs.all Char.isDigit then
    some (cs.foldl (fun a c => a * 10 + (c.toNat - 48)) 0)
  else none

/-- Models Python `int(str)`: surrounding whitespace is ignored, an
optional sign precedes a nonempty digit string; anything else raises
`ValueError`, modelled as `none`.  (Underscore digit separators, accepted
by CPython, are not modelled; no claim depends on them.) -/
def pyParseInt (s : String) : Option Int :=
  match (pyStrip s).data with
  | '+' :: rest => (parseDigits rest).map (fun n => (n : Int))
  | '-' :: rest => (parseDigits rest).map (fun n => -(n : Int))
  | cs => (parseDigits cs).map (fun n => (n : Int))

/-- One quiz item, embedding `Question.__init__` of `src/test_app.py`
(the source's `type` field is rendered `qtype`). -/
structure Question where
  id : String
  question : String
  qtype : String
  options : List String
  correct_answer : String
  explanation : String
  points : Int
  category : String
deriving DecidableEq

/-- Models the membership test `x in ['true','t','1','yes','y']` applied
to `x.lower().strip()` in `Question.check_answer`. -/
def pyIsTruthy (s : String) : Bool :=
  ["true", "t", "1", "yes", "y"].contains (pyStrip (pyLower s))

/-- Embeds `Question.check_answer` of `src/test_app.py`: returns the
correctness flag and the points earned.  The `ValueError` branch of the
source corresponds to `pyParseInt` returning `none`; an out-of-range
index falls through to the final `return False, 0` exactly as in the
source. -/
def check_answer (q : Question) (user_answer : String) : Bool × Int :=
  if q.qtype = "multiple_choice" then
    match pyParseInt user_answer with
    | none => (false, 0)
    | some v =>
      let choice_index := v - 1
      if 0 ≤ choice_index ∧ choice_index < (q.options.length : Int) then
        let selected := q.options.getD choice_index.toNat ""
        (selected == q.correct_answer,
          if selected == q.correct_answer then q.points else 0)
      else (false, 0)
  else if q.qtype = "true_false" then
    let answer_bool := pyIsTruthy user_answer
    let correct_bool := pyIsTruthy q.correct_answer
    (answer_bool == correct_bool,
      if answer_bool == correct_bool then q.points else 0)
  else if q.qtype = "fill_blank" ∨ q.qtype = "short_answer" then
    let user_clean := pyStrip (pyLower user_answer)
    let correct_clean := pyStrip (pyLower q.correct_answer)
    (user_clean == correct_clean,
      if user_clean == correct_clean then q.points else 0)
  else (false, 0)

/-- One entry of `TestSession.results`, embedding the dict built in
`TestSession.submit_answer`. -/
structure AnswerResult where
  question_id : String
  question : String
  user_answer : String
  correct_answer : String
  is_correct : Bool
  points_earned : Int
  max_points : Int
  explanation : String
deriving DecidableEq

/-- Embeds the `TestSession` state of `src/test_app.py`; the two
timestamps start out `None`. -/
structure TestSession where
  questions : List Question
  results : List AnswerResult
  start_time : Option Int
  end_time : Option Int
  current_question_index : Nat
deriving DecidableEq

/-- Embeds `TestSession.__init__`. -/
def TestSession.new (questions : List Question) : TestSession :=
  { questions := questions, results := [], start_time := none,
    end_time := none, current_question_index := 0 }

/-- Embeds `TestSession.start_test` (the printing is ignored). -/
def start_test (s : TestSession) (now : Int) : TestSession :=
  { s with start_time := some now }

/-- Errors a session method can signal.  `indexError` is the Python
`IndexError` the source raises when `get_current_question` subscripts
past the end of the list.  `outOfSequence` and `alreadyFinished` are the
spec's §7 `SessionError` cases, modelled from the spec for comparison:
the source never raises them. -/
inductive SessionExc where
  | indexError
  | outOfSequence
  | alreadyFinished
deriving DecidableEq

/-- The result dict `TestSession.submit_answer` appends for question `q`
and raw answer `user_answer`. -/
def mkResult (q : Question) (user_answer : String) : AnswerResult :=
  { question_id := q.id, question := q.question, user_answer := user_answer,
    correct_answer := q.correct_answer,
    is_correct := (check_answer q user_answer).1,
    points_earned := (check_answer q user_answer).2,
    max_points := q.points, explanation := q.explanation }

/-- Embeds `TestSession.submit_answer`: scores the current question,
appends the result, advances the index, and returns whether more
questions remain.  When the index is past the end, the source's call to
`get_current_question` raises `IndexError` before any state change;
here that is the `error` branch. -/
def submit_answer (s : TestSession) (answer : String) :
    Except SessionExc (TestSession × Bool) :=
  if h : s.current_question_index < s.questions.length then
    let question := s.questions.get ⟨s.current_question_index, h⟩
    let s2 := { s with results := s.results ++ [mkResult question answer],
                       current_question_index := s.current_question_index + 1 }
    Except.ok (s2, decide (s2.current_question_index < s2.questions.length))
  else
    Except.error SessionExc.indexError

/-- The summary dict returned by `TestSession.finish_test`. -/
structure Summary where
  total_points : Int
  max_points : Int
  percentage : Rat
  duration : Int
  results : List AnswerResult
deriving DecidableEq

/-- Embeds `TestSession.finish_test`: sets the end timestamp and builds
the summary.  The sums range over the recorded results, as in the
source.  When `start_time` is still `None` the source's subtraction
`end_time - start_time` raises `TypeError`; that is the `none` branch. -/
def finish_test (s : TestSession) (now : Int) :
    Option (TestSession × Summary) :=
  match s.start_time with
  | none => none
  | some st =>
    let s2 := { s with end_time := some now }
    let total_points : Int := (s.results.map (fun r => r.points_earned)).sum
    let max_points : Int := (s.results.map (fun r => r.max_points)).sum
    let percentage : Rat :=
      if 0 < max_points then (total_points : Rat) / (max_points : Rat) * 100
      else 0
    some (s2, { total_points := total_points, max_points := max_points,
                percentage := percentage, duration := now - st,
                results := s.results })

/-- Sequentially submits a list of raw answers, stopping at the first
error; models the driver loop calling `submit_answer` repeatedly. -/
def runAnswers (s : TestSession) : List String → Except SessionExc TestSession
  | [] => Except.ok s
  | a :: rest =>
    match submit_answer s a with
    | Except.error e => Except.error e
    | Except.ok p => runAnswers p.1 rest

/-- Fixture: a multiple-choice question worth 1 point whose correct
option is the first of two. -/
def mcQ : Question :=
  { id := "q1", question := "pick one", qtype := "multiple_choice",
    options := ["alpha", "beta"], correct_answer := "alpha",
    explanation := "", points := 1, category := "General" }

/-- Fixture: a true/false question worth 2 points whose correct answer
is the word True. -/
def tfQ : Question :=
  { id := "q2", question := "really?", qtype := "true_false",
    options := [], correct_answer := "True",
    explanation := "", points := 2, category := "General" }

/-- Fixture: a fill-in-the-blank question whose correct answer is the
word skin. -/
def fbQ : Question :=
  { id := "q3", question := "largest organ?", qtype := "fill_blank",
    options := [], correct_answer := "skin",
    explanation := "", points := 3, category := "Biology" }

/-- Fixture: a question of a type the scorer does not know. -/
def unkQ : Question :=
  { id := "q4", question := "discuss", qtype := "essay",
    options := [], correct_answer := "anything",
    explanation := "", points := 5, category := "General" }

/-- Fixture: a question worth 2 points, paired with `mcQ` in sessions
whose max points differ from the answered subset. -/
def mcQ2 : Question :=
  { id := "q5", question := "pick again", qtype := "multiple_choice",
    options := ["gamma", "delta"], correct_answer := "delta",
    explanation := "", points := 2, category := "General" }

/-- Fixture: the state reached from a fresh two-question session over
`mcQ` and `mcQ2` after answering only the first question. -/
def runState1 : TestSession :=
  { questions := [mcQ, mcQ2], results := [mkResult mcQ "1"], start_time := some 0,
    end_time := none, current_question_index := 1 }

/-- Fixture: a fresh one-question session over `mcQ` run to completion
with the correct answer. -/
def doneState : TestSession :=
  { questions := [mcQ], results := [mkResult mcQ "1"], start_time := some 0,
    end_time := none, current_question_index := 1 }

/-- Fixture: a fresh one-question session over `mcQ` run to completion
with a wrong answer. -/
def wrongState : TestSession :=
  { questions := [mcQ], results := [mkResult mcQ "2"], start_time := some 0,
    end_time := none, current_question_index := 1 }

/-- Fixture: `doneState` after `finish_test` at time 7. -/
def doneState2 : TestSession :=
  { doneState with end_time := some 7 }

/-- Fixture: the summary `finish_test` produces from `doneState` at
time 7. -/
def doneSummary : Summary :=
  { total_points := 1, max_points := 1, percentage := 100, duration := 7,
    results := [mkResult mcQ "1"] }

/-- Fixture: an empty started session finished at time 5. -/
def emptyDone : TestSession :=
  { questions := [], results := [], start_time := some 0, end_time := some 5,
    current_question_index := 0 }

/-- Fixture: the summary of an empty session finished at time 5. -/
def emptySummary : Summary :=
  { total_points := 0, max_points := 0, percentage := 0, duration := 5,
    results := [] }

/-- A `submit_answer` call with the index in range succeeds and produces
the successor state explicitly. -/
theorem submit_answer_ok (s : TestSession) (a : String)
    (h : s.current_question_index < s.questions.length) :
    submit_answer s a = Except.ok
      ({ s with
          results := s.results ++ [mkResult (s.questions.get ⟨s.current_question_index, h⟩) a],
          current_question_index := s.current_question_index + 1 },
        decide (s.current_question_index + 1 < s.questions.length)) := by
  simp [submit_answer, h]

/-- Running a list of answers that fits in the remaining questions
succeeds, appending one result per answer (built by `mkResult` from the
consecutive questions) and advancing the index accordingly. -/
theorem runAnswers_ok (answers : List String) (s : TestSession)
    (h : s.current_question_index + answers.length ≤ s.questions.length) :
    runAnswers s answers = Except.ok
      { s with
        results := s.results ++ List.zipWith mkResult
          ((s.questions.drop s.current_question_index).take answers.length) answers,
        current_question_index := s.current_question_index + answers.length } := by
  induction answers generalizing s with
  | nil =>
    cases s
    simp [runAnswers]
  | cons a rest ih =>
    have hlt : s.current_question_index < s.questions.length := by
      simp only [List.length_cons] at h
      omega
    rw [runAnswers, submit_answer_ok s a hlt]
    dsimp only
    rw [ih]
    · have hdrop :
          s.questions.drop s.current_question_index =
            s.questions.get ⟨s.current_question_index, hlt⟩ ::
              s.questions.drop (s.current_question_index + 1) := by
        exact List.drop_eq_getElem_cons hlt
      dsimp only
      rw [hdrop]
      simp only [List.length_cons, List.take_succ_cons, List.zipWith_cons_cons,
        List.append_assoc, List.singleton_append]
      congr 2
      omega
    · simp only [List.length_cons] at h
      simp only [List.length_cons]
      omega

/-- C6: for a multiple-choice question the raw answer is parsed as a
1-based integer index into the options; non-numeric or out-of-range
input scores incorrect with 0 points, and an in-range index is correct
with the question's point value exactly when the selected option equals
the correct-answer string. -/
theorem multiple_choice_scoring (q : Question) (ans : String)
    (h : q.qtype = "multiple_choice") :
    (pyParseInt ans = none → check_answer q ans = (false, 0)) ∧
    (∀ n : Int, pyParseInt ans = some n →
      (n < 1 ∨ (q.options.length : Int) < n) → check_answer q ans = (false, 0)) ∧
    (∀ n : Int, pyParseInt ans = some n → 1 ≤ n → n ≤ (q.options.length : Int) →
      ((check_answer q ans).1 = true ↔
        q.options.getD (n - 1).toNat "" = q.correct_answer) ∧
      (check_answer q ans).2 =
        (if q.options.getD (n - 1).toNat "" = q.correct_answer then q.points
         else 0)) := by
  refine ⟨?_, ?_, ?_⟩
  · intro hp
    simp [check_answer, h, hp]
  · intro n hp hrange
    have hc : ¬(0 ≤ n - 1 ∧ n - 1 < (q.options.length : Int)) := by omega
    simp only [check_answer, h, hp]
    rw [if_pos trivial, if_neg hc]
  · intro n hp h1 h2
    have hc : 0 ≤ n - 1 ∧ n - 1 < (q.options.length : Int) := by omega
    simp [check_answer, h, hp, hc, beq_iff_eq]

/-- Witness for `multiple_choice_scoring`: answering 1 on `mcQ` selects
option alpha, which is the correct answer. -/
theorem multiple_choice_scoring_witness :
    ((check_answer mcQ "1").1 = true ↔
      mcQ.options.getD ((1 : Int) - 1).toNat "" = mcQ.correct_answer) ∧
    (check_answer mcQ "1").2 =
      (if mcQ.options.getD ((1 : Int) - 1).toNat "" = mcQ.correct_answer
       then mcQ.points else 0) :=
  (multiple_choice_scoring mcQ "1" rfl).2.2 1 (by decide) (by decide) (by decide)

/-- C7: for a true/false question both strings are normalized by the
boolean-word recognizer, and the answer is correct with full points
exactly when the two normalized booleans agree. -/
theorem true_false_scoring (q : Question) (ans : String)
    (h : q.qtype = "true_false") :
    ((check_answer q ans).1 = true ↔ pyIsTruthy ans = pyIsTruthy q.correct_answer) ∧
    (check_answer q ans).2 =
      (if pyIsTruthy ans = pyIsTruthy q.correct_answer then q.points else 0) ∧
    pyIsTruthy ans = ["true", "t", "1", "yes", "y"].contains (pyStrip (pyLower ans)) := by
  refine ⟨?_, ?_, rfl⟩
  · simp [check_answer, h]
  · simp [check_answer, h]

/-- Witness for `true_false_scoring`: the question `tfQ` (correct
answer True) answered with a padded capital T. -/
theorem true_false_scoring_witness :
    (check_answer tfQ "  T  ").1 = true ↔
      pyIsTruthy "  T  " = pyIsTruthy tfQ.correct_answer :=
  (true_false_scoring tfQ "  T  " rfl).1

/-- C8: for fill-blank and short-answer questions, correctness is
case-insensitive whitespace-trimmed string equality with the
correct answer, rewarded with the question's full point value. -/
theorem text_answer_scoring (q : Question) (ans : String)
    (h : q.qtype = "fill_blank" ∨ q.qtype = "short_answer") :
    ((check_answer q ans).1 = true ↔
      pyStrip (pyLower ans) = pyStrip (pyLower q.correct_answer)) ∧
    (check_answer q ans).2 =
      (if pyStrip (pyLower ans) = pyStrip (pyLower q.correct_answer)
       then q.points else 0) := by
  rcases h with h | h <;> constructor <;> simp [check_answer, h]

/-- Witness for `text_answer_scoring`: correct answer skin matched by
the padded mixed-case input Skin. -/
theorem text_answer_scoring_witness :
    (check_answer fbQ "  Skin ").1 = true ↔
      pyStrip (pyLower "  Skin ") = pyStrip (pyLower fbQ.correct_answer) :=
  (text_answer_scoring fbQ "  Skin " (Or.inl rfl)).1

/-- C9: a question whose type is none of the four known kinds scores
every answer as incorrect with 0 points. -/
theorem unknown_type_scoring (q : Question) (ans : String)
    (h1 : q.qtype ≠ "multiple_choice") (h2 : q.qtype ≠ "true_false")
    (h3 : q.qtype ≠ "fill_blank") (h4 : q.qtype ≠ "short_answer") :
    check_answer q ans = (false, 0) := by
  simp [check_answer, h1, h2, h3, h4]

/-- Witness for `unknown_type_scoring`: an essay question scores 0 even
on the string recorded as its correct answer. -/
theorem unknown_type_scoring_witness :
    check_answer unkQ "anything" = (false, 0) :=
  unknown_type_scoring unkQ "anything" (by decide) (by decide) (by decide)
    (by decide)

/-- A `finish_test` call on a started session succeeds and produces the
updated state and summary explicitly. -/
theorem finish_test_eq (s : TestSession) (st now : Int)
    (h : s.start_time = some st) :
    finish_test s now = some
      ({ s with end_time := some now },
       { total_points := (s.results.map (fun r => r.points_earned)).sum,
         max_points := (s.results.map (fun r => r.max_points)).sum,
         percentage :=
           if 0 < (s.results.map (fun r => r.max_points)).sum then
             ((((s.results.map (fun r => r.points_earned)).sum : Int) : Rat)) /
               ((((s.results.map (fun r => r.max_points)).sum : Int) : Rat)) * 100
           else 0,
         duration := now - st, results := s.results }) := by
  unfold finish_test
  rw [h]

/-- Finishing the completed one-question session `doneState` at time 7
yields `doneState2` and `doneSummary`. -/
theorem doneState_finish :
    finish_test doneState 7 = some (doneState2, doneSummary) := by
  rw [finish_test_eq doneState 0 7 rfl]
  have h1 : check_answer mcQ "1" = (true, 1) := by decide
  have h2 : mcQ.points = 1 := by decide
  simp [doneState, doneState2, doneSummary, mkResult, h1, h2]

/-- The points a `check_answer` call awards are either 0 or the
question's full point value. -/
theorem check_answer_points (q : Question) (a : String) :
    (check_answer q a).2 = 0 ∨ (check_answer q a).2 = q.points := by
  rcases hca : check_answer q a with ⟨b, p⟩
  unfold check_answer at hca
  by_cases h1 : q.qtype = "multiple_choice"
  · rw [if_pos h1] at hca
    cases hp : pyParseInt a with
    | none =>
      rw [hp] at hca
      injection hca with hb hpp
      subst hpp
      left
      rfl
    | some v =>
      rw [hp] at hca
      dsimp only at hca
      split_ifs at hca with hc hd
      · injection hca with hb hpp
        subst hpp
        right
        rfl
      · injection hca with hb hpp
        subst hpp
        left
        rfl
      · injection hca with hb hpp
        subst hpp
        left
        rfl
  · rw [if_neg h1] at hca
    by_cases h2 : q.qtype = "true_false"
    · rw [if_pos h2] at hca
      dsimp only at hca
      split_ifs at hca with hd
      · injection hca with hb hpp
        subst hpp
        right
        rfl
      · injection hca with hb hpp
        subst hpp
        left
        rfl
    · rw [if_neg h2] at hca
      by_cases h3 : q.qtype = "fill_blank" ∨ q.qtype = "short_answer"
      · rw [if_pos h3] at hca
        dsimp only at hca
        split_ifs at hca with hd
        · injection hca with hb hpp
          subst hpp
          right
          rfl
        · injection hca with hb hpp
          subst hpp
          left
          rfl
      · rw [if_neg h3] at hca
        injection hca with hb hpp
        subst hpp
        left
        rfl

/-- Every entry of a zipped result list records the point value of one
of the zipped questions and earns either 0 or that value. -/
theorem mem_zipWith_mkResult {qs : List Question} {answers : List String}
    {r : AnswerResult} (h : r ∈ List.zipWith mkResult qs answers) :
    ∃ q, q ∈ qs ∧ r.max_points = q.points ∧
      (r.points_earned = 0 ∨ r.points_earned = r.max_points) := by
  induction qs generalizing answers with
  | nil => simp at h
  | cons q qt ih =>
    cases answers with
    | nil => simp at h
    | cons a rest =>
      simp only [List.zipWith_cons_cons, List.mem_cons] at h
      rcases h with h | h
      · subst h
        refine ⟨q, List.mem_cons_self q qt, rfl, ?_⟩
        simpa [mkResult] using check_answer_points q a
      · obtain ⟨q2, hq2, hmax, hpts⟩ := ih h
        exact ⟨q2, List.mem_cons_of_mem q hq2, hmax, hpts⟩

/-- Nonnegative per-result point values bound the earned sum between 0
and the max sum. -/
theorem results_sum_bounds (rs : List AnswerResult)
    (h : ∀ r ∈ rs, 0 ≤ r.max_points ∧
      (r.points_earned = 0 ∨ r.points_earned = r.max_points)) :
    0 ≤ (rs.map (fun r => r.points_earned)).sum ∧
      (rs.map (fun r => r.points_earned)).sum ≤
        (rs.map (fun r => r.max_points)).sum := by
  induction rs with
  | nil => simp
  | cons r rt ih =>
    obtain ⟨hm, he⟩ := h r (List.mem_cons_self r rt)
    obtain ⟨ih1, ih2⟩ := ih (fun x hx => h x (List.mem_cons_of_mem r hx))
    simp only [List.map_cons, List.sum_cons]
    rcases he with he | he <;> constructor <;> omega

/-- The per-result max points of a full run are exactly the question
point values, in order. -/
theorem zipWith_mkResult_max_points (qs : List Question)
    (answers : List String) (h : qs.length ≤ answers.length) :
    (List.zipWith mkResult qs answers).map (fun r => r.max_points) =
      qs.map (fun q => q.points) := by
  induction qs generalizing answers with
  | nil => simp
  | cons q qt ih =>
    cases answers with
    | nil => simp at h
    | cons a rest =>
      simp only [List.length_cons] at h
      simp only [List.zipWith_cons_cons, List.map_cons]
      exact congrArg _ (ih rest (by omega))

/-- C5: from a fresh session, N in-range submissions leave N results and
index N; each successful submission appends one result, advances the
index by one, and reports whether questions remain. -/
theorem submit_answer_invariant :
    (∀ (qs : List Question) (answers : List String) (t0 : Int)
        (s2 : TestSession),
      answers.length ≤ qs.length →
      runAnswers (start_test (TestSession.new qs) t0) answers = Except.ok s2 →
      s2.results.length = answers.length ∧
      s2.current_question_index = answers.length) ∧
    (∀ (s : TestSession) (a : String) (s2 : TestSession) (more : Bool),
      submit_answer s a = Except.ok (s2, more) →
      s2.results.length = s.results.length + 1 ∧
      s2.current_question_index = s.current_question_index + 1 ∧
      (more = true ↔ s2.current_question_index < s2.questions.length)) := by
  constructor
  · intro qs answers t0 s2 hlen hrun
    have h0 : (start_test (TestSession.new qs) t0).current_question_index +
        answers.length ≤ (start_test (TestSession.new qs) t0).questions.length := by
      simpa [start_test, TestSession.new] using hlen
    rw [runAnswers_ok answers _ h0] at hrun
    injection hrun with hs2
    subst hs2
    constructor
    · simp [start_test, TestSession.new, List.length_zipWith]
      omega
    · simp [start_test, TestSession.new]
  · intro s a s2 more hsub
    by_cases h : s.current_question_index < s.questions.length
    · rw [submit_answer_ok s a h] at hsub
      injection hsub with hp
      injection hp with hs2 hmore
      subst hs2
      subst hmore
      refine ⟨by simp, rfl, ?_⟩
      simp
    · simp [submit_answer, h] at hsub

/-- Witness for `submit_answer_invariant`: one answer into a fresh
two-question session gives one result at index one, having appended one
result, advanced the index from zero, and reported more questions. -/
theorem submit_answer_invariant_witness :
    (runState1.results.length = 1 ∧ runState1.current_question_index = 1) ∧
    (runState1.results.length =
        (start_test (TestSession.new [mcQ, mcQ2]) 0).results.length + 1 ∧
      runState1.current_question_index =
        (start_test (TestSession.new [mcQ, mcQ2]) 0).current_question_index + 1 ∧
      (true = true ↔
        runState1.current_question_index < runState1.questions.length)) :=
  ⟨submit_answer_invariant.1 [mcQ, mcQ2] ["1"] 0 runState1 (by decide) (by rfl),
   submit_answer_invariant.2 (start_test (TestSession.new [mcQ, mcQ2]) 0) "1"
     runState1 true (by rfl)⟩

/-- C1 counterexample: a two-question session (1 and 2 points) finished
after a single answer reports max points 1, the answered subset, not 3,
the sum over the original question list. -/
theorem finish_max_points_partial_counterexample :
    ((runAnswers (start_test (TestSession.new [mcQ, mcQ2]) 0) ["1"]).toOption.bind
        (fun s => finish_test s 7)).map (fun p => p.2.max_points) = some 1 ∧
    (([mcQ, mcQ2].map (fun q => q.points)).sum : Int) = 3 := by
  constructor
  · rfl
  · rfl

/-- C1 amended: finish sums total points and max points over the
recorded results (the answered questions); only when every question has
been answered does max points equal the sum over the original question
list. -/
theorem finish_sums_results :
    (∀ (s : TestSession) (t0 now : Int) (s2 : TestSession) (sm : Summary),
      s.start_time = some t0 →
      finish_test s now = some (s2, sm) →
      sm.total_points = (s.results.map (fun r => r.points_earned)).sum ∧
      sm.max_points = (s.results.map (fun r => r.max_points)).sum) ∧
    (∀ (qs : List Question) (answers : List String) (t0 now : Int)
        (s2 : TestSession) (p : TestSession × Summary),
      answers.length = qs.length →
      runAnswers (start_test (TestSession.new qs) t0) answers = Except.ok s2 →
      finish_test s2 now = some p →
      p.2.max_points = (qs.map (fun q => q.points)).sum) := by
  constructor
  · intro s t0 now s2 sm h hfin
    rw [finish_test_eq s t0 now h] at hfin
    injection hfin with hp
    injection hp with hs2 hsm
    subst hsm
    exact ⟨rfl, rfl⟩
  · intro qs answers t0 now s2 p hlen hrun hfin
    have h0 : (start_test (TestSession.new qs) t0).current_question_index +
        answers.length ≤ (start_test (TestSession.new qs) t0).questions.length := by
      simp [start_test, TestSession.new, hlen]
    rw [runAnswers_ok answers _ h0] at hrun
    injection hrun with hs2
    subst hs2
    rw [finish_test_eq _ t0 now (by simp [start_test, TestSession.new])] at hfin
    injection hfin with hp
    subst hp
    dsimp only
    simp only [start_test, TestSession.new, List.drop_zero, List.nil_append]
    rw [List.take_of_length_le (by omega),
      zipWith_mkResult_max_points qs answers (by omega)]

/-- Witness for `finish_sums_results`: the completed one-question
session `doneState` finished at time 7. -/
theorem finish_sums_results_witness :
    (doneSummary.total_points =
        (doneState.results.map (fun r => r.points_earned)).sum ∧
      doneSummary.max_points =
        (doneState.results.map (fun r => r.max_points)).sum) ∧
    doneSummary.max_points = ([mcQ].map (fun q => q.points)).sum :=
  ⟨finish_sums_results.1 doneState 0 7 doneState2 doneSummary rfl doneState_finish,
   finish_sums_results.2 [mcQ] ["1"] 0 7 doneState (doneState2, doneSummary)
      (by rfl) (by rfl) doneState_finish⟩

/-- C2 counterexample: a second `finish_test` call on an already
finished session succeeds and overwrites the end timestamp (5 becomes
9) instead of failing with an AlreadyFinished error. -/
theorem second_finish_overwrites_counterexample :
    ((finish_test (start_test (TestSession.new []) 0) 5).bind
        (fun p => finish_test p.1 9)).map (fun p => p.1.end_time) =
      some (some 9) ∧
    (finish_test (start_test (TestSession.new []) 0) 5).map
        (fun p => p.1.end_time) = some (some 5) := by
  constructor
  · rfl
  · rfl

/-- C2 amended: a second finish call on a finished session succeeds (no
AlreadyFinished error exists): it overwrites the end timestamp with the
new time and recomputes the summary over the unchanged results, so
total, max, percentage and result list agree with the first summary and
only the duration moves. -/
theorem second_finish_succeeds (s : TestSession) (t0 t1 t2 : Int)
    (s1 : TestSession) (sm1 : Summary)
    (h : s.start_time = some t0)
    (h1 : finish_test s t1 = some (s1, sm1)) :
    finish_test s1 t2 = some
      ({ s1 with end_time := some t2 },
       { total_points := sm1.total_points, max_points := sm1.max_points,
         percentage := sm1.percentage, duration := t2 - t0,
         results := sm1.results }) := by
  rw [finish_test_eq s t0 t1 h] at h1
  injection h1 with hp
  injection hp with hA hB
  subst hA
  subst hB
  rw [finish_test_eq _ t0 t2 (by simpa using h)]

/-- Witness for `second_finish_succeeds`: finishing the already
finished empty session again at time 9. -/
theorem second_finish_succeeds_witness :
    finish_test emptyDone 9 = some
      ({ emptyDone with end_time := some 9 },
       { total_points := emptySummary.total_points,
         max_points := emptySummary.max_points,
         percentage := emptySummary.percentage, duration := 9 - 0,
         results := emptySummary.results }) :=
  second_finish_succeeds (start_test (TestSession.new []) 0) 0 5 9 emptyDone
    emptySummary rfl (by rfl)

/-- C3 counterexample: submitting to a completed session fails with the
Python IndexError raised by the list subscript, which is not the spec's
OutOfSequence error. -/
theorem submit_past_end_index_error_counterexample :
    runAnswers (start_test (TestSession.new [mcQ]) 0) ["1"] =
      Except.ok doneState ∧
    submit_answer doneState "1" = Except.error SessionExc.indexError ∧
    SessionExc.indexError ≠ SessionExc.outOfSequence := by
  refine ⟨rfl, rfl, ?_⟩
  intro hcontra
  cases hcontra

/-- C3 amended: submitting when the index is not below the question
count fails with the IndexError from the list subscript, scoring
nothing and producing no successor state, so the session state is
unchanged. -/
theorem submit_past_end_fails (s : TestSession) (a : String)
    (h : s.questions.length ≤ s.current_question_index) :
    submit_answer s a = Except.error SessionExc.indexError := by
  have h2 : ¬ s.current_question_index < s.questions.length := by omega
  simp [submit_answer, h2]

/-- Witness for `submit_past_end_fails`: the completed one-question
session rejects a further answer. -/
theorem submit_past_end_fails_witness :
    submit_answer doneState "2" = Except.error SessionExc.indexError :=
  submit_past_end_fails doneState "2" (by decide)

/-- C4 counterexample: a one-question session answered incorrectly has
percentage 0 while max points is 1, so percentage 0 does not imply max
points 0. -/
theorem percentage_zero_with_positive_max_counterexample :
    runAnswers (start_test (TestSession.new [mcQ]) 0) ["2"] =
      Except.ok wrongState ∧
    (finish_test wrongState 7).map
      (fun p => (p.2.percentage, p.2.max_points)) = some (0, 1) ∧
    (1 : Int) ≠ 0 := by
  refine ⟨rfl, ?_, by decide⟩
  rw [finish_test_eq wrongState 0 7 rfl]
  have h2 : check_answer mcQ "2" = (false, 0) := by decide
  have h3 : mcQ.points = 1 := by decide
  simp [wrongState, mkResult, h2, h3]

/-- C4 amended: the percentage in a finish summary is 0 whenever max
points is 0 and equals total/max times 100 whenever max points is
positive (it can also be 0 with positive max points, when total is 0). -/
theorem percentage_formula (s : TestSession) (t0 now : Int)
    (s2 : TestSession) (sm : Summary)
    (h : s.start_time = some t0)
    (hfin : finish_test s now = some (s2, sm)) :
    (sm.max_points = 0 → sm.percentage = 0) ∧
    (0 < sm.max_points →
      sm.percentage = (sm.total_points : Rat) / (sm.max_points : Rat) * 100) := by
  rw [finish_test_eq s t0 now h] at hfin
  injection hfin with hp
  injection hp with hA hB
  subst hB
  constructor
  · intro h0
    dsimp only at h0 ⊢
    simp [h0]
  · intro h0
    dsimp only at h0 ⊢
    rw [if_pos h0]

/-- Witness for `percentage_formula`: the empty session finished at
time 5 has max points 0 and percentage 0. -/
theorem percentage_formula_witness :
    (emptySummary.max_points = 0 → emptySummary.percentage = 0) ∧
    (0 < emptySummary.max_points →
      emptySummary.percentage =
        (emptySummary.total_points : Rat) / (emptySummary.max_points : Rat) * 100) :=
  percentage_formula (start_test (TestSession.new []) 0) 0 5 emptyDone
    emptySummary rfl (by rfl)

/-- The percentage formula stays between 0 and 100 whenever the earned
total lies between 0 and the max. -/
theorem percentage_bounds (T M : Int) (h1 : 0 ≤ T) (h2 : T ≤ M) :
    0 ≤ (if 0 < M then (T : Rat) / (M : Rat) * 100 else 0) ∧
    (if 0 < M then (T : Rat) / (M : Rat) * 100 else 0) ≤ 100 := by
  split
  · next hM =>
    have hM2 : (0 : Rat) < (M : Rat) := by exact_mod_cast hM
    have hT : (0 : Rat) ≤ (T : Rat) := by exact_mod_cast h1
    have hTM : (T : Rat) ≤ (M : Rat) := by exact_mod_cast h2
    constructor
    · positivity
    · have hdiv := (div_le_one hM2).mpr hTM
      nlinarith
  · norm_num

/-- C10: over questions with nonnegative point values, every recorded
result earns 0 or its question's value, and the finish summary has
total between 0 and max and percentage between 0 and 100. -/
theorem score_bounds (qs : List Question) (answers : List String)
    (t0 t1 : Int) (s2 : TestSession) (p : TestSession × Summary)
    (hq : ∀ q ∈ qs, 0 ≤ q.points)
    (hlen : answers.length ≤ qs.length)
    (hrun : runAnswers (start_test (TestSession.new qs) t0) answers = Except.ok s2)
    (hfin : finish_test s2 t1 = some p) :
    (∀ r ∈ s2.results, r.points_earned = 0 ∨ r.points_earned = r.max_points) ∧
    0 ≤ p.2.total_points ∧ p.2.total_points ≤ p.2.max_points ∧
    0 ≤ p.2.percentage ∧ p.2.percentage ≤ 100 := by
  have h0 : (start_test (TestSession.new qs) t0).current_question_index +
      answers.length ≤ (start_test (TestSession.new qs) t0).questions.length := by
    simpa [start_test, TestSession.new] using hlen
  rw [runAnswers_ok answers _ h0] at hrun
  injection hrun with hs2
  subst hs2
  have hres : ∀ r ∈ List.zipWith mkResult (qs.take answers.length) answers,
      0 ≤ r.max_points ∧
        (r.points_earned = 0 ∨ r.points_earned = r.max_points) := by
    intro r hr
    obtain ⟨q, hqmem, hmax, hpts⟩ := mem_zipWith_mkResult hr
    have hq0 : 0 ≤ q.points := hq q (List.take_subset _ _ hqmem)
    exact ⟨hmax ▸ hq0, hpts⟩
  rw [finish_test_eq _ t0 t1 (by simp [start_test, TestSession.new])] at hfin
  injection hfin with hp
  subst hp
  have hsum := results_sum_bounds _ hres
  refine ⟨?_, ?_, ?_, ?_, ?_⟩
  · intro r hr
    simp only [start_test, TestSession.new, List.nil_append, List.drop_zero] at hr
    exact (hres r hr).2
  · dsimp only
    simpa [start_test, TestSession.new] using hsum.1
  · dsimp only
    simpa [start_test, TestSession.new] using hsum.2
  · dsimp only
    simp only [start_test, TestSession.new, List.nil_append, List.drop_zero]
    exact (percentage_bounds _ _ hsum.1 hsum.2).1
  · dsimp only
    simp only [start_test, TestSession.new, List.nil_append, List.drop_zero]
    exact (percentage_bounds _ _ hsum.1 hsum.2).2

/-- Witness for `score_bounds`: the completed one-question session over
`mcQ`. -/
theorem score_bounds_witness :
    (∀ r ∈ doneState.results,
      r.points_earned = 0 ∨ r.points_earned = r.max_points) ∧
    0 ≤ doneSummary.total_points ∧
    doneSummary.total_points ≤ doneSummary.max_points ∧
    0 ≤ doneSummary.percentage ∧ doneSummary.percentage ≤ 100 :=
  score_bounds [mcQ] ["1"] 0 7 doneState (doneState2, doneSummary)
    (by decide) (by decide) (by rfl) doneState_finish

end TestApp
